import Mathlib

/-!
Verification of the `addeol` newline-enforcement pipeline (`src/main.rs`,
`src/printer.rs`) against its specification.

Shallow embedding conventions:
* A file's bytes are a `List Nat` (each element < 256 in practice; the claims
  only compare bytes against the linefeed 10 and carriage return 13).
* Filesystem permissions relevant to `File::options().read(true).write(!dry_run)`
  are carried in `FileState` as two booleans; opening succeeds iff the file is
  readable and, when write access is requested (non-dry-run), writable.
* `seek(SeekFrom::End(-1))` on a regular file fails exactly when the file is
  empty, in which case the recovery `seek(SeekFrom::End(0))? == 0` holds and
  `process` returns `Ok(false)`; this is the `getLast? = none` branch.
* The platform-conditional `NEWLINE` constant (`b"\r\n"` on windows, `b"\n"`
  elsewhere) is a `windows : Bool` parameter.
* The `ignore` walker yields a stream of entries, each either a found entry
  with an optional file type (`entry.file_type()` is `None` e.g. for stdin)
  or a traversal error; modelled by `Entry`.
* The mpsc channel simply carries `FileResult` values to the reporter; the
  counters of `print_results` are order-independent folds, so a list
  serialization of the channel is faithful for the counting claims.
-/

/-- Result of opening/inspecting a file when an I/O step fails.
`openError` models a failure of `File::options().read(true).write(!dry_run).open(..)`. -/
inductive ProcError where
  | openError
deriving Repr, DecidableEq

/-- The observable state of one regular file: its byte content and whether the
current user may read / write it. -/
structure FileState where
  content : List Nat
  readable : Bool
  writable : Bool
deriving Repr, DecidableEq

/-- `NEWLINE` from `main.rs` lines 156-159: `b"\r\n"` on windows, `b"\n"` otherwise. -/
def NEWLINE (windows : Bool) : List Nat :=
  if windows then [13, 10] else [10]

/-- `process` from `main.rs` lines 131-165.  Returns `Ok (modified, newContent)`
or an error.  Steps: open for read (and write unless `dry_run`); seek to one
byte before EOF (fails only for an empty file, recovered as `Ok false`); read
the last byte; compare against `b'\n' = 10`; in dry-run report `true` without
touching the file; otherwise append `NEWLINE` and report `true`. -/
def process (windows : Bool) (fs : FileState) (dry_run : Bool) :
    Except ProcError (Bool × List Nat) :=
  if fs.readable && (dry_run || fs.writable) then
    match fs.content.getLast? with
    | none => .ok (false, fs.content)
    | some byte =>
      if byte = 10 then .ok (false, fs.content)
      else if dry_run then .ok (true, fs.content)
      else .ok (true, fs.content ++ NEWLINE windows)
  else .error .openError

/-- `FileResult` from `main.rs` lines 45-50 (payloads dropped: the claims only
count and classify outcomes). -/
inductive FileResult where
  | UpdatedFile
  | UpToDateFile
  | FileError
  | UnknownError
deriving Repr, DecidableEq

/-- One entry of the parallel walk (`walker.run` callback argument,
`main.rs` lines 74-90): either a found entry carrying `entry.file_type()`
(`some true` = regular file, `some false` = other type, `none` = no type)
together with the file's state, or a traversal error. -/
inductive Entry where
  | found (fileType : Option Bool) (fs : FileState)
  | walkError
deriving Repr, DecidableEq

/-- The outcome one worker invocation sends on the channel for one entry
(`main.rs` lines 74-93): a traversal error becomes `UnknownError`; a found
entry is inspected only when `entry.file_type().map_or(false, |ft| ft.is_file())`
holds, and then `process`'s result is tagged; other entries send nothing. -/
def workerSend (windows dry_run : Bool) : Entry → Option FileResult
  | .found fileType fs =>
    if fileType.getD false then
      match process windows fs dry_run with
      | .ok (true, _) => some .UpdatedFile
      | .ok (false, _) => some .UpToDateFile
      | .error _ => some .FileError
    else none
  | .walkError => some .UnknownError

/-- The file state after one worker invocation: only a successful non-dry-run
`process` call changes the content (`file.write_all(NEWLINE)`). -/
def workerEffect (windows dry_run : Bool) : Entry → Entry
  | .found fileType fs =>
    if fileType.getD false then
      match process windows fs dry_run with
      | .ok (_, c) => .found fileType ⟨c, fs.readable, fs.writable⟩
      | .error _ => .found fileType fs
    else .found fileType fs
  | .walkError => .walkError

/-- The sequence of outcomes the channel carries for a walk over `entries`:
each entry contributes its `workerSend` outcome, errors included, and the
callback always returns `Continue` so every later entry is still processed. -/
def runResults (windows dry_run : Bool) (entries : List Entry) : List FileResult :=
  entries.filterMap (workerSend windows dry_run)

/-- The reporter's counters (`print_results` locals `file_count`,
`updated_count`, `error_count`, `main.rs` lines 171-173). -/
structure Counters where
  file_count : Nat
  updated_count : Nat
  error_count : Nat
deriving Repr, DecidableEq

/-- One iteration of the reporter's receive loop (`main.rs` lines 175-198):
how the counters change for one received `FileResult`. -/
def countResult (c : Counters) : FileResult → Counters
  | .UpdatedFile => ⟨c.file_count + 1, c.updated_count + 1, c.error_count⟩
  | .UpToDateFile => ⟨c.file_count + 1, c.updated_count, c.error_count⟩
  | .FileError => ⟨c.file_count + 1, c.updated_count, c.error_count + 1⟩
  | .UnknownError => ⟨c.file_count, c.updated_count, c.error_count + 1⟩

/-- The counters after the reporter has drained the channel
(`print_results`, `main.rs` lines 167-219). -/
def print_results (rs : List FileResult) : Counters :=
  rs.foldl countResult ⟨0, 0, 0⟩

/-- What a whole run observably produces: the process exit code and the
reporter's final counters. -/
structure PipelineResult where
  exitCode : Nat
  counters : Counters
deriving Repr, DecidableEq

/-- `main` / `run` (`main.rs` lines 52-98): if `build_walker` fails the process
prints the error and exits `1`; otherwise the walk runs, the reporter's
`Result` is discarded (`let _ = print_results(rx, args)`), `run` returns
`Ok(())` and the process exits `0` regardless of the outcomes received. -/
def pipeline (windows dry_run : Bool) (walkerOk : Bool) (entries : List Entry) :
    PipelineResult :=
  if walkerOk then
    ⟨0, print_results (runResults windows dry_run entries)⟩
  else
    ⟨1, ⟨0, 0, 0⟩⟩

/-- Claim C3: a non-empty file whose last byte is the linefeed terminator is
reported up-to-date in either mode and its bytes are unchanged. -/
theorem process_last_newline_upToDate (windows dry_run : Bool) (fs : FileState)
    (hr : fs.readable = true) (hw : fs.writable = true)
    (hlast : fs.content.getLast? = some 10) :
    process windows fs dry_run = .ok (false, fs.content) := by
  cases dry_run <;> simp [process, hr, hw, hlast]

/-- Claim C3 witness: the file `"abc\n"` is up-to-date in both modes. -/
theorem process_last_newline_upToDate_witness :
    process false ⟨[97, 98, 99, 10], true, true⟩ false =
      .ok (false, [97, 98, 99, 10]) ∧
    process false ⟨[97, 98, 99, 10], true, true⟩ true =
      .ok (false, [97, 98, 99, 10]) :=
  ⟨process_last_newline_upToDate false false ⟨[97, 98, 99, 10], true, true⟩
      rfl rfl (by decide),
   process_last_newline_upToDate false true ⟨[97, 98, 99, 10], true, true⟩
      rfl rfl (by decide)⟩

/-- Claim C4: a zero-length file is reported up-to-date in both modes and its
(empty) content is never written to. -/
theorem process_empty_upToDate (windows dry_run : Bool) (fs : FileState)
    (hr : fs.readable = true) (hw : fs.writable = true)
    (he : fs.content = []) :
    process windows fs dry_run = .ok (false, fs.content) := by
  cases dry_run <;> simp [process, hr, hw, he]

/-- Claim C4 witness: the empty file is up-to-date in both modes. -/
theorem process_empty_upToDate_witness :
    process false ⟨[], true, true⟩ false = .ok (false, []) ∧
    process false ⟨[], true, true⟩ true = .ok (false, []) :=
  ⟨process_empty_upToDate false false ⟨[], true, true⟩ rfl rfl rfl,
   process_empty_upToDate false true ⟨[], true, true⟩ rfl rfl rfl⟩

/-- Claim C2: a non-empty file whose last byte is not the linefeed terminator
is updated by a non-dry-run inspection, the new content is exactly the old
bytes with one `NEWLINE` appended, and re-inspecting the result reports
up-to-date. -/
theorem process_append_idempotent (windows : Bool) (fs : FileState)
    (hr : fs.readable = true) (hw : fs.writable = true)
    (hne : fs.content ≠ []) (hlast : fs.content.getLast? ≠ some 10) :
    process windows fs false = .ok (true, fs.content ++ NEWLINE windows) ∧
    process windows ⟨fs.content ++ NEWLINE windows, fs.readable, fs.writable⟩ false =
      .ok (false, fs.content ++ NEWLINE windows) := by
  constructor
  · match h : fs.content.getLast? with
    | none => exact absurd (List.getLast?_eq_none_iff.mp h) hne
    | some b =>
      have hb : b ≠ 10 := fun hb10 => hlast (hb10 ▸ h)
      simp [process, hr, hw, h, hb]
  · have hnl : (NEWLINE windows).getLast? = some 10 := by
      cases windows <;> simp [NEWLINE]
    have h2 : (fs.content ++ NEWLINE windows).getLast? = some 10 := by
      rw [List.getLast?_append_of_ne_nil, hnl]
      cases windows <;> simp [NEWLINE]
    exact process_last_newline_upToDate windows false
      ⟨fs.content ++ NEWLINE windows, fs.readable, fs.writable⟩ hr hw h2

/-- Claim C2 witness: the 3-byte file `"abc"` becomes `"abc\n"` and is then
up-to-date. -/
theorem process_append_idempotent_witness :
    process false ⟨[97, 98, 99], true, true⟩ false =
      .ok (true, [97, 98, 99] ++ NEWLINE false) ∧
    process false ⟨[97, 98, 99] ++ NEWLINE false, true, true⟩ false =
      .ok (false, [97, 98, 99] ++ NEWLINE false) :=
  process_append_idempotent false ⟨[97, 98, 99], true, true⟩ rfl rfl
    (by decide) (by decide)

/-- Claim C5: a dry-run inspection never changes the file content whatever it
returns, and (for a readable and writable file) it reports a needed update
exactly when a non-dry-run inspection of the same unchanged file reports
`Updated`. -/
theorem process_dry_run_frame (windows : Bool) (fs : FileState) :
    (∀ b c, process windows fs true = .ok (b, c) → c = fs.content) ∧
    (fs.readable = true → fs.writable = true →
      ((process windows fs true = .ok (true, fs.content)) ↔
        (∃ c, process windows fs false = .ok (true, c)))) := by
  constructor
  · intro b c h
    by_cases hr : fs.readable = true
    · match hl : fs.content.getLast? with
      | none => simp [process, hr, hl] at h; exact h.2.symm
      | some byte =>
        by_cases hb : byte = 10 <;>
          simp [process, hr, hl, hb] at h <;> exact h.2.symm
    · rw [Bool.not_eq_true] at hr
      simp [process, hr] at h
  · intro hr hw
    match hl : fs.content.getLast? with
    | none => simp [process, hr, hw, hl]
    | some byte =>
      by_cases hb : byte = 10 <;> simp [process, hr, hw, hl, hb]

/-- Claim C5 witness: for the 1-byte file `"a"`, dry-run reports a needed
update without touching the content, and non-dry-run then reports `Updated`. -/
theorem process_dry_run_frame_witness :
    ∃ c, process false ⟨[97], true, true⟩ false = .ok (true, c) :=
  ((process_dry_run_frame false ⟨[97], true, true⟩).2 rfl rfl).mp rfl

/-- Claim C9: opening a readable but non-writable file fails in non-dry-run
mode before any inspection (a `FileError` even when the file already ends with
the terminator), while a dry-run opens it read-only and succeeds, leaving the
content unchanged. -/
theorem process_readonly_open (windows : Bool) (fs : FileState)
    (hr : fs.readable = true) (hw : fs.writable = false) :
    process windows fs false = .error .openError ∧
    (∃ b, process windows fs true = .ok (b, fs.content)) := by
  refine ⟨by simp [process, hr, hw], ?_⟩
  match hl : fs.content.getLast? with
  | none => exact ⟨false, by simp [process, hr, hl]⟩
  | some byte =>
    by_cases hb : byte = 10
    · exact ⟨false, by simp [process, hr, hl, hb]⟩
    · exact ⟨true, by simp [process, hr, hl, hb]⟩

/-- Claim C9 witness: the read-only file `"\n"` (already terminated) yields an
open error in non-dry-run mode but is reported up-to-date by a dry-run. -/
theorem process_readonly_open_witness :
    process false ⟨[10], true, false⟩ false = .error .openError ∧
    (∃ b, process false ⟨[10], true, false⟩ true = .ok (b, [10])) :=
  process_readonly_open false ⟨[10], true, false⟩ rfl rfl

/-- Claim C10: on every platform (both values of `windows`) the up-to-date test
compares the last byte with the linefeed 10 only: a file ending in a lone
carriage return 13 needs an update, while a file ending in 10 (hence also one
ending in the pair 13, 10) is up-to-date. -/
theorem process_compares_linefeed_only (windows dry_run : Bool) (fs : FileState)
    (hr : fs.readable = true) (hw : fs.writable = true) :
    (fs.content.getLast? = some 13 →
      ∃ c, process windows fs dry_run = .ok (true, c)) ∧
    (fs.content.getLast? = some 10 →
      process windows fs dry_run = .ok (false, fs.content)) := by
  constructor
  · intro hl
    cases dry_run
    · exact ⟨fs.content ++ NEWLINE windows, by simp [process, hr, hw, hl]⟩
    · exact ⟨fs.content, by simp [process, hr, hl]⟩
  · intro hl
    exact process_last_newline_upToDate windows dry_run fs hr hw hl

/-- Claim C10 witness: on the windows platform, the file `"a\r"` is reported
as needing an update while `"a\r\n"` is reported up-to-date. -/
theorem process_compares_linefeed_only_witness :
    (∃ c, process true ⟨[97, 13], true, true⟩ false = .ok (true, c)) ∧
    process true ⟨[97, 13, 10], true, true⟩ false = .ok (false, [97, 13, 10]) :=
  ⟨(process_compares_linefeed_only true false ⟨[97, 13], true, true⟩ rfl rfl).1
      (by decide),
   (process_compares_linefeed_only true false ⟨[97, 13, 10], true, true⟩ rfl rfl).2
      (by decide)⟩

/-- The reporter's receive loop, folded from an arbitrary starting state: each
counter grows by the number of outcomes of the kinds that increment it. -/
theorem foldl_countResult_spec (rs : List FileResult) (c : Counters) :
    rs.foldl countResult c =
      ⟨c.file_count + rs.count .UpdatedFile + rs.count .UpToDateFile +
          rs.count .FileError,
        c.updated_count + rs.count .UpdatedFile,
        c.error_count + rs.count .FileError + rs.count .UnknownError⟩ := by
  induction rs generalizing c with
  | nil => simp
  | cons r rs ih =>
    cases r <;>
      simp [countResult, ih, List.count_cons, Counters.mk.injEq] <;>
      omega

/-- Claim C6: after any sequence of outcomes, the reporter's total-files
counter equals the number of `Updated` plus `UpToDate` plus `FileError`
outcomes (excluding `UnknownError`), and its error counter equals the number
of `FileError` plus `UnknownError` outcomes. -/
theorem print_results_counters (rs : List FileResult) :
    (print_results rs).file_count =
      rs.count .UpdatedFile + rs.count .UpToDateFile + rs.count .FileError ∧
    (print_results rs).error_count =
      rs.count .FileError + rs.count .UnknownError := by
  rw [print_results, foldl_countResult_spec rs ⟨0, 0, 0⟩]
  exact ⟨by simp, by simp⟩

/-- Claim C7: a traversal error becomes exactly one `UnknownError` outcome, a
failing per-file inspection becomes exactly one `FileError` outcome, and in
both cases the run continues: the outcomes of the remaining entries are
produced unchanged. -/
theorem run_error_isolation (windows dry_run : Bool) :
    (workerSend windows dry_run .walkError = some .UnknownError) ∧
    (∀ (fileType : Option Bool) (fs : FileState) (e : ProcError),
      fileType.getD false = true → process windows fs dry_run = .error e →
      workerSend windows dry_run (.found fileType fs) = some .FileError) ∧
    (∀ (e : Entry) (es : List Entry),
      runResults windows dry_run (e :: es) =
        (workerSend windows dry_run e).toList ++ runResults windows dry_run es) := by
  refine ⟨rfl, ?_, ?_⟩
  · intro ft fs e hft hp
    simp [workerSend, hft, hp]
  · intro e es
    cases h : workerSend windows dry_run e <;>
      simp [runResults, List.filterMap_cons, h]

/-- Claim C7 witness: inspecting an unreadable regular file yields exactly one
`FileError` outcome. -/
theorem run_error_isolation_witness :
    workerSend false false (.found (some true) ⟨[97], false, true⟩) =
      some .FileError :=
  (run_error_isolation false false).2.1 (some true) ⟨[97], false, true⟩
    .openError rfl rfl

/-- Claim C8: a found entry whose file type is not a regular file (other type,
or no type at all) produces no outcome: nothing is sent on the channel and the
reporter's counters are exactly those of the remaining entries. -/
theorem nonfile_entry_skipped (windows dry_run : Bool) (fileType : Option Bool)
    (fs : FileState) (h : fileType.getD false = false) :
    workerSend windows dry_run (.found fileType fs) = none ∧
    ∀ es, print_results (runResults windows dry_run (.found fileType fs :: es)) =
      print_results (runResults windows dry_run es) := by
  have hs : workerSend windows dry_run (.found fileType fs) = none := by
    simp [workerSend, h]
  refine ⟨hs, fun es => ?_⟩
  simp [runResults, List.filterMap_cons, hs]

/-- Claim C8 witness: a directory entry sends nothing and leaves the counters
of the rest of the walk unchanged. -/
theorem nonfile_entry_skipped_witness :
    workerSend false false (.found (some false) ⟨[97], true, true⟩) = none ∧
    print_results (runResults false false
        [.found (some false) ⟨[97], true, true⟩, .walkError]) =
      print_results (runResults false false [.walkError]) :=
  ⟨(nonfile_entry_skipped false false (some false) ⟨[97], true, true⟩ rfl).1,
   (nonfile_entry_skipped false false (some false) ⟨[97], true, true⟩ rfl).2
      [.walkError]⟩

/-- Claim C1 counterexample: a run whose walker was built successfully but
which received one `UnknownError` (traversal failure) and one `FileError`
(unreadable file) outcome still exits with status `0`, although the claim
requires a non-zero exit status for such a run. -/
theorem exit_zero_despite_errors :
    (pipeline false false true
        [.walkError, .found (some true) ⟨[97], false, true⟩]).counters.error_count
      = 2 ∧
    (pipeline false false true
        [.walkError, .found (some true) ⟨[97], false, true⟩]).exitCode = 0 :=
  ⟨rfl, rfl⟩

/-- Claim C1 amended: the exit status is non-zero exactly when building the
walker from the configuration failed; the outcomes received during the run,
`FileError` and `UnknownError` included, never affect the exit status, which
is `0` whenever the walk starts. -/
theorem exit_nonzero_iff_config_failure (windows dry_run walkerOk : Bool)
    (entries : List Entry) :
    (pipeline windows dry_run walkerOk entries).exitCode ≠ 0 ↔
      walkerOk = false := by
  cases walkerOk <;> simp [pipeline]
